import Mathlib

/-!
# FileOrganizerPro — verification of the Organization Engine

A shallow embedding of the engine's core (transaction log / undo manager,
scanner filters, duplicate detector, categorizer, move-as-copy-then-delete)
together with theorems settling the specification claims.

Conventions:
* Python `deque(maxlen = cap)` stacks are modelled as Lean lists with the
  *head* as the most recent element; appending on the Python right end is
  consing on the Lean head, and eviction of the oldest entry drops the last
  list element.
* Paths are plain strings; the filesystem is an association list from path
  to byte contents (`List Nat`).
* Per-file exceptions raised by the Python runtime (`OSError`,
  `PermissionError`, shutil failures) are modelled by `Option` results or by
  an explicit outcome oracle, as noted at each definition.
-/

namespace FileOrganizerPro

/-! ## Transaction log (src/undo_manager.py)

`UndoOperation` (undo_manager.py lines 17–51): operation kind, source,
destination, metadata and a creation timestamp.  Of the free-form metadata
dictionary only the `backup_path` key is ever read by `_reverse_operation`,
so the model keeps exactly that field; the timestamp is modelled in whole
seconds as an integer, which is all `undo_last_job`'s 60-second window
compares. -/

inductive OpKind where
  | move
  | copy
  | delete
deriving DecidableEq, Repr

structure UndoOperation where
  kind : OpKind
  source : String
  destination : String
  backupPath : Option String
  timestamp : Int
deriving DecidableEq, Repr

/-- State of `UndoManager` (undo_manager.py lines 66–79): bounded undo and
redo stacks (`deque(maxlen = max_history)`, head = most recent), the current
job buffer and the current job id. -/
structure UndoManagerState where
  maxHistory : Nat
  undoStack : List UndoOperation
  redoStack : List UndoOperation
  currentJobOps : List UndoOperation
  currentJobId : Option String
deriving DecidableEq, Repr

/-- Appending to a `deque(maxlen = cap)`: the new element becomes the most
recent; when the deque is full the oldest element is evicted. -/
def pushBounded (cap : Nat) (stack : List UndoOperation) (op : UndoOperation) :
    List UndoOperation :=
  if stack.length < cap then op :: stack else op :: stack.dropLast

/-- `UndoManager.start_job` (undo_manager.py lines 81–84). -/
def startJob (s : UndoManagerState) (jobId : String) : UndoManagerState :=
  { s with currentJobId := some jobId, currentJobOps := [] }

/-- `UndoManager.record_operation` (undo_manager.py lines 86–106): append the
operation to the current job buffer and the undo stack, then clear the redo
stack. -/
def recordOperation (s : UndoManagerState) (op : UndoOperation) :
    UndoManagerState :=
  { s with
    currentJobOps := s.currentJobOps ++ [op]
    undoStack := pushBounded s.maxHistory s.undoStack op
    redoStack := [] }

/-- `UndoManager.end_job` (undo_manager.py lines 108–114); persistence is a
filesystem effect outside this state model. -/
def endJob (s : UndoManagerState) : UndoManagerState :=
  { s with currentJobId := none, currentJobOps := [] }

/-- Outcome of `UndoManager._reverse_operation` as observed by its callers:
it returns `True`, returns `False`, or raises. -/
inductive RevOutcome where
  | success
  | failure
  | raised (msg : String)
deriving DecidableEq, Repr

/-- `UndoManager.undo_last_operation` (undo_manager.py lines 116–144),
parametric in the reversal outcome.  The Python method returns a `bool` or
raises, modelled as `Except String Bool`: empty stack gives `ok false`; a
successful reversal moves the entry to the redo stack and gives `ok true`; a
failed reversal pushes the entry back onto the undo stack and gives
`ok false`; a raised reversal pushes the entry back and re-raises. -/
def undoLastOperation (rev : UndoOperation → RevOutcome)
    (s : UndoManagerState) : Except String Bool × UndoManagerState :=
  match s.undoStack with
  | [] => (.ok false, s)
  | op :: rest =>
    match rev op with
    | .success =>
      (.ok true,
        { s with
          undoStack := rest
          redoStack := pushBounded s.maxHistory s.redoStack op })
    | .failure => (.ok false, { s with undoStack := op :: rest })
    | .raised m =>
      (.error ("Undo failed: " ++ m), { s with undoStack := op :: rest })

/-- The stack walk of `UndoManager.undo_last_job` (undo_manager.py lines
156–178): pop entries while their timestamp is within 60 seconds of the most
recent entry's timestamp; the first older entry is popped, pushed back, and
the walk stops.  Returns the collected job operations (most recent first,
i.e. pop order) and the remaining undo stack. -/
def collectJobOps (lastTime : Int) : List UndoOperation →
    List UndoOperation × List UndoOperation
  | [] => ([], [])
  | op :: rest =>
    if lastTime - op.timestamp ≤ 60 then
      let (js, rem) := collectJobOps lastTime rest
      (op :: js, rem)
    else ([], op :: rest)

/-- Per-job undo statistics (undo_manager.py lines 184–189). -/
structure JobStats where
  total : Nat
  successful : Nat
  failed : Nat
  errors : List String
deriving DecidableEq, Repr

/-- Result dictionary of `undo_last_job`. -/
structure UndoJobResult where
  success : Bool
  stats : Option JobStats
  message : String
deriving DecidableEq, Repr

/-- `UndoManager.undo_last_job` (undo_manager.py lines 146–210), parametric
in the reversal outcome.  Operations are grouped purely by the 60-second
timestamp window (`collectJobOps`); each collected operation is reversed in
pop order (most recent first), successes move to the redo stack, failures
and raises are pushed back onto the undo stack and counted. -/
def undoLastJob (rev : UndoOperation → RevOutcome) (s : UndoManagerState) :
    UndoJobResult × UndoManagerState :=
  match s.undoStack with
  | [] => ({ success := false, stats := none,
             message := "No operations to undo" }, s)
  | top :: _ =>
    let (jobOps, rem) := collectJobOps top.timestamp s.undoStack
    if jobOps = [] then
      ({ success := false, stats := none, message := "No job operations found" },
        { s with undoStack := rem })
    else
      let init : JobStats × List UndoOperation × List UndoOperation :=
        ({ total := jobOps.length, successful := 0, failed := 0, errors := [] },
          rem, s.redoStack)
      let step := fun (acc : JobStats × List UndoOperation × List UndoOperation)
          (op : UndoOperation) =>
        let (st, undo, redo) := acc
        match rev op with
        | .success =>
          ({ st with successful := st.successful + 1 }, undo,
            pushBounded s.maxHistory redo op)
        | .failure =>
          ({ st with failed := st.failed + 1 },
            pushBounded s.maxHistory undo op, redo)
        | .raised m =>
          ({ st with failed := st.failed + 1, errors := st.errors ++ [m] },
            pushBounded s.maxHistory undo op, redo)
      let (st, undo, redo) := jobOps.foldl step init
      ({ success := st.failed = 0, stats := some st,
         message := "Undone " ++ toString st.successful ++ "/" ++
           toString st.total ++ " operations" },
        { s with undoStack := undo, redoStack := redo })

/-! ## Filesystem model

A flat association list from absolute path to byte contents.  Directory
creation (`mkdir(parents=True, exist_ok=True)`) never fails in this model
and paths are atoms, so it is a no-op. -/

abbrev FS := List (String × List Nat)

/-- Contents stored at `p`, if the file exists. -/
def FS.read (fs : FS) (p : String) : Option (List Nat) :=
  match fs with
  | [] => none
  | (q, c) :: rest => if q = p then some c else FS.read rest p

/-- `Path.exists()`. -/
def FS.pathExists (fs : FS) (p : String) : Bool :=
  (fs.read p).isSome

/-- Write `c` at `p` (create or overwrite). -/
def FS.write (fs : FS) (p : String) (c : List Nat) : FS :=
  match fs with
  | [] => [(p, c)]
  | (q, c0) :: rest =>
    if q = p then (q, c) :: rest else (q, c0) :: FS.write rest p c

/-- `Path.unlink()` / removal of `p`. -/
def FS.remove (fs : FS) (p : String) : FS :=
  match fs with
  | [] => []
  | (q, c) :: rest => if q = p then rest else (q, c) :: FS.remove rest p

/-- `UndoManager._reverse_operation` (undo_manager.py lines 234–273) on the
filesystem model.
* move: if the destination exists, move it back to the source and return
  `true`; otherwise return `false`.
* copy: if the destination exists, unlink it and return `true`; otherwise
  return `false`.
* delete: if the metadata records a backup path that exists, copy it to the
  destination and return `true`; otherwise return `false`.
The model's filesystem primitives are total, so the `raise` path of the
Python code (a shutil call failing) does not arise here. -/
def reverseOperation (fs : FS) (op : UndoOperation) : Bool × FS :=
  match op.kind with
  | .move =>
    match fs.read op.destination with
    | some c => (true, (fs.remove op.destination).write op.source c)
    | none => (false, fs)
  | .copy =>
    match fs.read op.destination with
    | some _ => (true, fs.remove op.destination)
    | none => (false, fs)
  | .delete =>
    match op.backupPath with
    | some bp =>
      match fs.read bp with
      | some c => (true, fs.write op.destination c)
      | none => (false, fs)
    | none => (false, fs)

/-- `UndoManager.undo_last_operation` with the concrete
`_reverse_operation` of the filesystem model (undo_manager.py lines
116–144 together with lines 234–273). -/
def undoLastOperationFS (s : UndoManagerState) (fs : FS) :
    Except String Bool × UndoManagerState × FS :=
  match s.undoStack with
  | [] => (.ok false, s, fs)
  | op :: rest =>
    let (ok, fs') := reverseOperation fs op
    if ok then
      (.ok true,
        { s with
          undoStack := rest
          redoStack := pushBounded s.maxHistory s.redoStack op }, fs')
    else
      (.ok false, { s with undoStack := op :: rest }, fs')

/-! ## Move as copy-then-delete (src/file_organizer_pro.py lines 717–725)

`FileOrganizerPro.move_or_copy_file` in move mode calls `shutil.move` and
wraps any exception, performing no cleanup of its own.  Across volumes
`shutil.move` copies the file (`copy2`) and then unlinks the source; if the
copy raises partway, the exception propagates with the source untouched.
The partial-failure point is modelled by `failAfter`: `none` means the copy
completes, `some k` means it raises after writing the first `k` bytes of
the destination. -/

/-- `shutil.copy2` with an injected partial failure: on success the full
contents reach the destination; on failure the destination holds the first
`k` bytes written so far.  Returns whether the copy succeeded. -/
def copy2Partial (fs : FS) (src dst : String) (failAfter : Option Nat) :
    Bool × FS :=
  match fs.read src with
  | none => (false, fs)
  | some c =>
    match failAfter with
    | none => (true, fs.write dst c)
    | some k => (false, fs.write dst (c.take k))

/-- `shutil.move` across volumes: copy then delete the source; a failed copy
propagates with the source left in place and no cleanup of the partial
destination. -/
def shutilMove (fs : FS) (src dst : String) (failAfter : Option Nat) :
    Bool × FS :=
  let (ok, fs') := copy2Partial fs src dst failAfter
  if ok then (true, fs'.remove src) else (false, fs')

/-- `FileOrganizerPro.move_or_copy_file` in move mode
(src/file_organizer_pro.py lines 717–725): it delegates to `shutil.move`
and re-raises failures as its own exception; it removes nothing on failure.
`FileOperations.copy`
(src/fileorganizer_pro/infrastructure/filesystem/file_reader_writer.py
lines 261–287) likewise only wraps the error. -/
def moveOrCopyFileMove (fs : FS) (src dst : String) (failAfter : Option Nat) :
    Bool × FS :=
  shutilMove fs src dst failAfter

/-! ## Scanner (src/fileorganizer_pro/services/scanning_service.py)

The per-file loop of `ScanningService.scan` (lines 123–155) and the filter
`_should_include_file` (lines 192–241).  Each candidate file carries the
outcomes of the two `stat` calls the code performs: one inside
`_should_include_file` and one when building the `FileItem` — a file can
vanish between the two, so they are separate oracles. -/

/-- Python `str.lower()` on the ASCII extension and path strings this
engine compares (character-wise lowercasing). -/
def pyLower (s : String) : String :=
  String.mk (s.data.map Char.toLower)

structure FileMeta where
  size : Nat
  mtime : Int
deriving DecidableEq, Repr

structure ScanCandidate where
  path : String
  /-- `Path(file_path).suffix`, case preserved (e.g. `".PDF"`). -/
  suffix : String
  /-- Outcome of the `stat` inside `_should_include_file` (line 222);
  `none` models `OSError`/`PermissionError`. -/
  statFilter : Option FileMeta
  /-- Outcome of the `stat` when creating the `FileItem` (line 138). -/
  statCreate : Option FileMeta
deriving DecidableEq, Repr

/-- The extension filter of `_should_include_file` (lines 216–219):
`if extensions:` is Python truthiness, so `None` and the empty set both
disable the filter; otherwise the *lowercased* suffix must be a member. -/
def extFilterRejects (suffix : String) (extensions : Option (List String)) :
    Bool :=
  match extensions with
  | none => false
  | some es => if es = [] then false else decide ((pyLower suffix) ∉ es)

/-- `ScanningService._should_include_file` (lines 192–241): extension
filter, then `stat` (failure → `False`, the file is silently excluded), then
size bounds (`if max_size and size > max_size`: a `None` or `0` bound is
falsy), then date bounds. -/
def shouldIncludeFile (f : ScanCandidate) (extensions : Option (List String))
    (minSize : Nat) (maxSize : Option Nat) (minDate maxDate : Option Int) :
    Bool :=
  if extFilterRejects f.suffix extensions then false
  else
    match f.statFilter with
    | none => false
    | some m =>
      if m.size < minSize then false
      else if (match maxSize with
               | some mx => mx ≠ 0 && decide (mx < m.size)
               | none => false : Bool) then false
      else if minDate.isSome || maxDate.isSome then
        if (match minDate with
            | some d => decide (m.mtime < d)
            | none => false : Bool) then false
        else if (match maxDate with
                 | some d => decide (d < m.mtime)
                 | none => false : Bool) then false
        else true
      else true

/-- The `FileItem` constructed at lines 139–145, keeping the fields the
claims inspect (the `extension` property of a `FileItem` is derived from
its path; the model carries it alongside). -/
structure FileItemM where
  path : String
  suffix : String
  size : Nat
  mtime : Int
deriving DecidableEq, Repr

/-- The per-file loop of `ScanningService.scan` (lines 123–155): a candidate
failing `_should_include_file` is counted as skipped; one that passes but
whose `stat` at `FileItem` creation raises is appended to the error list;
otherwise the `FileItem` is appended.  Returns (files, errors, skipped). -/
def scanFiles (extensions : Option (List String)) (minSize : Nat)
    (maxSize : Option Nat) (minDate maxDate : Option Int) :
    List ScanCandidate → List FileItemM × List String × Nat
  | [] => ([], [], 0)
  | f :: rest =>
    let r := scanFiles extensions minSize maxSize minDate maxDate rest
    if shouldIncludeFile f extensions minSize maxSize minDate maxDate then
      match f.statCreate with
      | some m => (⟨f.path, f.suffix, m.size, m.mtime⟩ :: r.1, r.2.1, r.2.2)
      | none => (r.1, ("Cannot read: " ++ f.path) :: r.2.1, r.2.2)
    else (r.1, r.2.1, r.2.2 + 1)

/-! ## Duplicate detector (src/fileorganizer_pro/services/duplicate_service.py)

`DuplicateService.detect_duplicates` (lines 48–117): hash every file
(failures are logged and the file excluded), group by digest in a
`defaultdict` (insertion-ordered), and emit the groups of size ≥ 2 through
the `DuplicateGroup` constructor with `original = file_list[0]`. -/

structure DuplicateGroup where
  hash : String
  files : List FileItemM
  original : FileItemM
deriving DecidableEq, Repr

/-- `DuplicateGroup.__post_init__`
(src/fileorganizer_pro/domain/entities/__init__.py lines 130–136): raise
(`none`) when fewer than 2 files; default the original to the first file
when not supplied. -/
def mkDuplicateGroup (h : String) (files : List FileItemM)
    (orig : Option FileItemM) : Option DuplicateGroup :=
  match files, orig with
  | f0 :: f1 :: rest, none => some ⟨h, f0 :: f1 :: rest, f0⟩
  | f0 :: f1 :: rest, some o => some ⟨h, f0 :: f1 :: rest, o⟩
  | _, _ => none

/-- `hash_map[file_hash.digest].append(file_item)` on a `defaultdict(list)`:
append to the existing bucket, or open a new bucket at the end. -/
def hashMapInsert (m : List (String × List FileItemM)) (d : String)
    (f : FileItemM) : List (String × List FileItemM) :=
  match m with
  | [] => [(d, [f])]
  | (k, fs) :: rest =>
    if k = d then (k, fs ++ [f]) :: rest else (k, fs) :: hashMapInsert rest d f

/-- One iteration of the hashing loop of `detect_duplicates` (lines 77–88):
a file whose hash computation raises (`hash f = none`) is recorded as an
error and excluded from grouping. -/
def hashStep (hash : FileItemM → Option String)
    (m : List (String × List FileItemM)) (f : FileItemM) :
    List (String × List FileItemM) :=
  match hash f with
  | some d => hashMapInsert m d f
  | none => m

/-- The hashing loop of `detect_duplicates` (lines 77–88). -/
def buildHashMap (hash : FileItemM → Option String)
    (files : List FileItemM) : List (String × List FileItemM) :=
  files.foldl (hashStep hash) []

/-- The grouping step of `detect_duplicates` (lines 91–101): keep buckets
with at least two files, constructing each group with
`original = file_list[0]`. -/
def detectDuplicates (hash : FileItemM → Option String)
    (files : List FileItemM) : List DuplicateGroup :=
  (buildHashMap hash files).filterMap fun kv =>
    if 2 ≤ kv.2.length then mkDuplicateGroup kv.1 kv.2 kv.2.head? else none

/-! ## Categorizer (src/fileorganizer_pro/services/categorization_service.py)

The rule table is an insertion-ordered mapping from category name to
extension list; the reverse index is an insertion-ordered dictionary from
lowercased extension to category name. -/

/-- Python `dict` assignment `m[k] = v`: overwrite in place, or append a new
key at the end. -/
def dictSet (m : List (String × String)) (k v : String) :
    List (String × String) :=
  match m with
  | [] => [(k, v)]
  | (k0, v0) :: rest =>
    if k0 = k then (k0, v) :: rest else (k0, v0) :: dictSet rest k v

/-- Python `k in m` / `m[k]` on a `dict`. -/
def dictGet (m : List (String × String)) (k : String) : Option String :=
  match m with
  | [] => none
  | (k0, v0) :: rest => if k0 = k then some v0 else dictGet rest k

structure CategorizationState where
  categoryMappings : List (String × List String)
  defaultCategory : String
  extensionMap : List (String × String)
deriving DecidableEq, Repr

/-- `CategorizationService._build_extension_map` (lines 68–72): for every
category and every extension, assign `extension_map[ext.lower()] =
category`.  It writes into the *existing* dictionary — it never clears
it — so it is parameterised by the map it starts from. -/
def buildExtensionMap (start : List (String × String))
    (mappings : List (String × List String)) : List (String × String) :=
  mappings.foldl
    (fun em kv => kv.2.foldl (fun em2 ext => dictSet em2 (pyLower ext) kv.1) em)
    start

/-- `CategorizationService.__init__` (lines 49–66): store the mappings and
build the reverse index starting from an empty dictionary. -/
def initService (mappings : List (String × List String))
    (defaultCategory : String) : CategorizationState :=
  { categoryMappings := mappings
    defaultCategory := defaultCategory
    extensionMap := buildExtensionMap [] mappings }

/-- `CategorizationService.categorize` (lines 74–107): look the lowercased
suffix up in the reverse index, falling back to the default category. -/
def categorize (s : CategorizationState) (suffix : String) : String :=
  match dictGet s.extensionMap (pyLower suffix) with
  | some c => c
  | none => s.defaultCategory

/-- `CategorizationService.load_from_config` (lines 220–235): replace
`category_mappings` with the parsed config, then call
`_build_extension_map` — which updates the existing `_extension_map` in
place without clearing it first. -/
def loadFromConfig (s : CategorizationState)
    (config : List (String × List String)) : CategorizationState :=
  { s with
    categoryMappings := config
    extensionMap := buildExtensionMap s.extensionMap config }

/-! ## Invariant of the hashing map -/

/-- Invariant of the `defaultdict` built by the hashing loop after the files
in `processed` have been handled: every bucket is nonempty, every file in a
bucket hashes to the bucket's digest, and every bucket lists its files as a
subsequence of the processed input (hence in input order, with the bucket's
first file the first encountered). -/
def bucketInv (hash : FileItemM → Option String) (processed : List FileItemM)
    (m : List (String × List FileItemM)) : Prop :=
  ∀ kv ∈ m,
    kv.2 ≠ [] ∧ (∀ f ∈ kv.2, hash f = some kv.1) ∧ kv.2.Sublist processed

/-! ## Concrete scenarios used by witnesses and counterexamples -/

/-- A move recorded in job `"J1"` at `t = 0` s. -/
def opJob1 : UndoOperation :=
  { kind := .move, source := "/a.txt", destination := "/organized/a.txt",
    backupPath := none, timestamp := 0 }

/-- A move recorded in job `"J2"` at `t = 30` s. -/
def opJob2 : UndoOperation :=
  { kind := .move, source := "/b.txt", destination := "/organized/b.txt",
    backupPath := none, timestamp := 30 }

/-- A fresh `UndoManager` with the default `max_history = 1000` and no
persisted history. -/
def freshManager : UndoManagerState :=
  { maxHistory := 1000, undoStack := [], redoStack := [],
    currentJobOps := [], currentJobId := none }

/-- Two jobs run back to back through the transaction-log API: job `"J1"`
records `opJob1` and ends; job `"J2"` records `opJob2` thirty seconds later
and ends. -/
def twoJobState : UndoManagerState :=
  endJob (recordOperation (startJob
    (endJob (recordOperation (startJob freshManager "J1") opJob1)) "J2")
    opJob2)

/-- The recorded move of Scenario 3: `/src/f.txt` → `/dst/f.txt`. -/
def opScenario3 : UndoOperation :=
  { kind := .move, source := "/src/f.txt", destination := "/dst/f.txt",
    backupPath := none, timestamp := 0 }

/-- Manager state holding exactly the Scenario 3 move. -/
def scenario3State : UndoManagerState :=
  { freshManager with undoStack := [opScenario3] }

/-- A candidate file named `X.PDF` (uppercase extension), 500 bytes,
readable. -/
def upperPdfCandidate : ScanCandidate :=
  { path := "X.PDF", suffix := ".PDF",
    statFilter := some { size := 500, mtime := 0 },
    statCreate := some { size := 500, mtime := 0 } }

/-- A candidate file whose metadata cannot be read: both `stat` calls
raise. -/
def unreadableCandidate : ScanCandidate :=
  { path := "/data/locked.bin", suffix := ".bin",
    statFilter := none, statCreate := none }

/-- A candidate file that vanishes between the filter's `stat` and the
`FileItem` construction: the first `stat` succeeds, the second raises. -/
def vanishingCandidate : ScanCandidate :=
  { path := "/data/vanished.txt", suffix := ".txt",
    statFilter := some { size := 10, mtime := 0 },
    statCreate := none }

/-- An ordinary readable candidate file. -/
def okCandidate : ScanCandidate :=
  { path := "/data/ok.txt", suffix := ".txt",
    statFilter := some { size := 7, mtime := 0 },
    statCreate := some { size := 7, mtime := 0 } }

/-- A hashing oracle under which every file has the same digest `"dd"`. -/
def constHash : FileItemM → Option String := fun _ => some "dd"

/-- Two byte-identical files, `a.txt` first in input order. -/
def fileA : FileItemM := { path := "a.txt", suffix := ".txt", size := 3, mtime := 0 }

/-- Second of the two byte-identical files. -/
def fileB : FileItemM := { path := "b.txt", suffix := ".txt", size := 3, mtime := 0 }

/-- The group `detect_duplicates` forms for `fileA`/`fileB` under
`constHash`. -/
def groupAB : DuplicateGroup := { hash := "dd", files := [fileA, fileB], original := fileA }

/-- A categorizer seeded with `".pdf" → "Documents"` and default category
`"Other"`, then reconfigured via `load_from_config` with a mapping that no
longer mentions `".pdf"`. -/
def reloadedCategorizer : CategorizationState :=
  loadFromConfig (initService [("Documents", [".pdf"])] "Other")
    [("Images", [".jpg"])]

/-- A filesystem holding one two-byte source file. -/
def twoByteFs : FS := [("/data/src.bin", [1, 2])]

/-! ## Helper lemmas -/

theorem FS.read_write_self (fs : FS) (p : String) (c : List Nat) :
    (fs.write p c).read p = some c := by
  induction fs with
  | nil => simp [FS.write, FS.read]
  | cons kv rest ih =>
    obtain ⟨q, c0⟩ := kv
    by_cases h : q = p
    · simp [FS.write, FS.read, h]
    · simp [FS.write, FS.read, h, ih]

theorem FS.read_write_ne (fs : FS) (p q : String) (c : List Nat)
    (h : p ≠ q) : (fs.write p c).read q = fs.read q := by
  induction fs with
  | nil => simp [FS.write, FS.read, h]
  | cons kv rest ih =>
    obtain ⟨k, c0⟩ := kv
    by_cases hk : k = p
    · subst hk
      simp [FS.write, FS.read, h]
    · simp [FS.write, FS.read, hk, ih]

theorem shouldIncludeFile_ext_mem (f : ScanCandidate) (es : List String)
    (minSize : Nat) (maxSize : Option Nat) (minDate maxDate : Option Int)
    (hne : es ≠ [])
    (h : shouldIncludeFile f (some es) minSize maxSize minDate maxDate = true) :
    pyLower f.suffix ∈ es := by
  by_contra hmem
  have hrej : extFilterRejects f.suffix (some es) = true := by
    simp [extFilterRejects, hne, hmem]
  simp [shouldIncludeFile, hrej] at h

/-! ## Claim theorems -/

/-- C5: every call to `record_operation` leaves the redo stack empty — for
every transaction-log state (including one reached after undos), recording
any new operation clears the redo stack, so redo is impossible until another
undo occurs. -/
theorem C5_record_operation_clears_redo (s : UndoManagerState)
    (op : UndoOperation) : (recordOperation s op).redoStack = [] := rfl

/-- C3: when reversing the popped operation fails — `_reverse_operation`
returns `False` or raises — `undo_last_operation` pushes the entry back
unchanged, so the undo stack after the call equals the undo stack before it,
the redo stack is unchanged, and the failure is reported to the caller
(either as a `False` return or as the re-raised exception). -/
theorem C3_failed_undo_preserves_history (rev : UndoOperation → RevOutcome)
    (s : UndoManagerState) (op : UndoOperation) (rest : List UndoOperation)
    (hstack : s.undoStack = op :: rest) (hfail : rev op ≠ .success) :
    (undoLastOperation rev s).2.undoStack = s.undoStack ∧
    (undoLastOperation rev s).2.redoStack = s.redoStack ∧
    ((undoLastOperation rev s).1 = .ok false ∨
      ∃ m, (undoLastOperation rev s).1 = .error ("Undo failed: " ++ m)) := by
  cases hrev : rev op with
  | success => exact absurd hrev hfail
  | failure =>
    refine ⟨?_, ?_, Or.inl ?_⟩ <;>
      simp [undoLastOperation, hstack, hrev]
  | raised m =>
    refine ⟨?_, ?_, Or.inr ⟨m, ?_⟩⟩ <;>
      simp [undoLastOperation, hstack, hrev]

/-- Witness for C3 at a concrete input: a one-element undo stack whose
reversal reports failure. -/
theorem C3_failed_undo_preserves_history_witness :
    (undoLastOperation (fun _ => RevOutcome.failure)
        scenario3State).2.undoStack = scenario3State.undoStack ∧
    (undoLastOperation (fun _ => RevOutcome.failure)
        scenario3State).2.redoStack = scenario3State.redoStack ∧
    ((undoLastOperation (fun _ => RevOutcome.failure) scenario3State).1 =
        .ok false ∨
      ∃ m, (undoLastOperation (fun _ => RevOutcome.failure)
        scenario3State).1 = .error ("Undo failed: " ++ m)) :=
  C3_failed_undo_preserves_history (fun _ => RevOutcome.failure)
    scenario3State opScenario3 [] rfl (by decide)

/-- C10: calling `scan` with an empty (but non-`None`) extension set
disables the extension filter rather than excluding every file — Python's
`if extensions:` is false for the empty set, so inclusion is decided exactly
as with no extension filter, regardless of the candidate's suffix. -/
theorem C10_empty_extension_set_disables_filter (f : ScanCandidate)
    (s2 : String) (minSize : Nat) (maxSize : Option Nat)
    (minDate maxDate : Option Int) :
    shouldIncludeFile { f with suffix := s2 } (some []) minSize maxSize
        minDate maxDate =
      shouldIncludeFile f none minSize maxSize minDate maxDate := by
  simp [shouldIncludeFile, extFilterRejects]

/-- C4, counterexample: Scenario 3 claims the consumed entry "remains absent
from the undo stack (already consumed)".  On the code, the failed reversal
pushes the entry back (undo_manager.py line 138): after recording the move
`/src/f.txt` → `/dst/f.txt` and externally deleting the destination,
`undo_last_operation` returns failure and the source still does not exist,
but the entry is present on the undo stack again — it is not absent. -/
theorem C4_counterexample :
    (undoLastOperationFS scenario3State ([] : FS)).1 = .ok false ∧
    FS.read (undoLastOperationFS scenario3State ([] : FS)).2.2
      "/src/f.txt" = none ∧
    (undoLastOperationFS scenario3State ([] : FS)).2.1.undoStack =
      [opScenario3] ∧
    (undoLastOperationFS scenario3State ([] : FS)).2.1.undoStack ≠ [] :=
  ⟨rfl, rfl, rfl, by simp [undoLastOperationFS, scenario3State,
    reverseOperation, opScenario3, freshManager, FS.read]⟩

/-- C4, amended: after recording a Move whose destination has been deleted
externally (and whose source does not exist), `undo_last_operation` returns
failure, the original source path still does not exist, and the entry is
pushed back onto the undo stack unchanged — reported as failed, not silently
dropped, but present on the stack again rather than absent. -/
theorem C4_failed_move_undo (s : UndoManagerState) (fs : FS)
    (op : UndoOperation) (rest : List UndoOperation)
    (hstack : s.undoStack = op :: rest) (hkind : op.kind = .move)
    (hdst : fs.read op.destination = none)
    (hsrc : fs.read op.source = none) :
    (undoLastOperationFS s fs).1 = .ok false ∧
    (undoLastOperationFS s fs).2.2.read op.source = none ∧
    (undoLastOperationFS s fs).2.1.undoStack = s.undoStack := by
  have hrev : reverseOperation fs op = (false, fs) := by
    simp [reverseOperation, hkind, hdst]
  refine ⟨?_, ?_, ?_⟩ <;> simp [undoLastOperationFS, hstack, hrev, hsrc]

/-- Witness for C4's amended statement at the Scenario 3 input. -/
theorem C4_failed_move_undo_witness :
    (undoLastOperationFS scenario3State ([] : FS)).1 = .ok false ∧
    (undoLastOperationFS scenario3State ([] : FS)).2.2.read
      opScenario3.source = none ∧
    (undoLastOperationFS scenario3State ([] : FS)).2.1.undoStack =
      scenario3State.undoStack :=
  C4_failed_move_undo scenario3State ([] : FS) opScenario3 [] rfl rfl rfl rfl

/-- C1: the claim says `undo_last_job` reverses exactly the operations of
the most recent job and no others.  The code groups by a 60-second
timestamp window instead of job boundaries (undo_manager.py lines 162–174):
in `twoJobState`, job `"J1"` recorded only `opJob1` (t = 0 s) and job `"J2"`
recorded only `opJob2` (t = 30 s), yet one call to `undo_last_job` reverses
both operations — `opJob1` of the *earlier* job is moved to the redo stack
and the stats report 2 reversals, while the claim requires exactly the one
operation of job `"J2"`. -/
theorem C1_undo_last_job_crosses_job_boundary :
    (undoLastJob (fun _ => RevOutcome.success) twoJobState).2.redoStack =
      [opJob1, opJob2] ∧
    (undoLastJob (fun _ => RevOutcome.success) twoJobState).2.undoStack =
      [] ∧
    (undoLastJob (fun _ => RevOutcome.success) twoJobState).1.stats =
      some { total := 2, successful := 2, failed := 0, errors := [] } := by
  refine ⟨?_, ?_, ?_⟩ <;> rfl

/-- C8: the claim says an extension absent from the loaded mapping falls
back to the default category.  On the code, `load_from_config` replaces
`category_mappings` but `_build_extension_map` only overlays the new
entries onto the existing `_extension_map` without clearing it
(categorization_service.py lines 68–72, 227–231): after loading a mapping
that no longer mentions `".pdf"`, the stale index entry still resolves
`".pdf"` to `"Documents"` instead of the default `"Other"` — although a
categorizer built from scratch from the same mapping returns `"Other"`. -/
theorem C8_load_from_config_keeps_stale_extensions :
    reloadedCategorizer.categoryMappings = [("Images", [".jpg"])] ∧
    categorize reloadedCategorizer ".pdf" = "Documents" ∧
    categorize (initService [("Images", [".jpg"])] "Other") ".pdf" =
      "Other" := by
  refine ⟨rfl, ?_, ?_⟩ <;> decide

/-- C6, counterexample: with extension filter `E = {".pdf"}` the scan
includes the file `X.PDF`, whose extension `".PDF"` is not a member of `E` —
the filter compares the *lowercased* suffix (scanning_service.py line 217),
so the returned file's literal extension need not belong to `E`. -/
theorem C6_counterexample :
    (scanFiles (some [".pdf"]) 0 none none none [upperPdfCandidate]).1 =
      [{ path := "X.PDF", suffix := ".PDF", size := 500, mtime := 0 }] ∧
    ".PDF" ∉ [".pdf"] := by
  refine ⟨?_, by decide⟩
  decide

/-- C6, amended: for every scan invoked with a non-empty extension filter
`E`, each file in the returned result has an extension whose lowercased form
is a member of `E`. -/
theorem C6_scan_extension_filter (es : List String) (hne : es ≠ [])
    (minSize : Nat) (maxSize : Option Nat) (minDate maxDate : Option Int)
    (cands : List ScanCandidate) :
    ∀ fi ∈ (scanFiles (some es) minSize maxSize minDate maxDate cands).1,
      pyLower fi.suffix ∈ es := by
  induction cands with
  | nil => simp [scanFiles]
  | cons f rest ih =>
    intro fi hfi
    rw [scanFiles] at hfi
    by_cases hinc :
        shouldIncludeFile f (some es) minSize maxSize minDate maxDate = true
    · rw [if_pos hinc] at hfi
      cases hc : f.statCreate with
      | some m =>
        rw [hc] at hfi
        rcases List.mem_cons.1 hfi with hfi | hfi
        · subst hfi
          exact shouldIncludeFile_ext_mem f es minSize maxSize minDate
            maxDate hne hinc
        · exact ih fi hfi
      | none =>
        rw [hc] at hfi
        exact ih fi hfi
    · rw [if_neg hinc] at hfi
      exact ih fi hfi

/-- Witness for C6's amended statement: the uppercase-suffixed file included
under the filter `{".pdf"}` has lowercased extension `".pdf" ∈ E`. -/
theorem C6_scan_extension_filter_witness :
    pyLower (FileItemM.suffix
      { path := "X.PDF", suffix := ".PDF", size := 500, mtime := 0 }) ∈
      [".pdf"] :=
  C6_scan_extension_filter [".pdf"] (by decide) 0 none none none
    [upperPdfCandidate]
    { path := "X.PDF", suffix := ".PDF", size := 500, mtime := 0 }
    (by decide)

/-- C7, counterexample: a file whose metadata cannot be read — both `stat`
calls raise — is *silently skipped*: the `stat` failure inside
`_should_include_file` (scanning_service.py lines 240–241) returns `False`,
so the file is counted as skipped and the returned error list is empty,
contradicting the claim that it is reported in the error list. -/
theorem C7_counterexample :
    (scanFiles none 0 none none none [unreadableCandidate]).1 = [] ∧
    (scanFiles none 0 none none none [unreadableCandidate]).2.1 = [] ∧
    (scanFiles none 0 none none none [unreadableCandidate]).2.2 = 1 :=
  ⟨rfl, rfl, rfl⟩

/-- C7, amended: a per-file I/O error raised while building the `FileItem`
of a file that passed all filters (e.g. the file vanished between the two
`stat` calls) is appended to the returned error list and does not abort the
scan — the remaining files are processed unchanged.  A file whose metadata
cannot be read during filter evaluation, however, is silently skipped, not
reported. -/
theorem C7_scan_error_reporting (extensions : Option (List String))
    (minSize : Nat) (maxSize : Option Nat) (minDate maxDate : Option Int)
    (f : ScanCandidate) (rest : List ScanCandidate)
    (hpass : shouldIncludeFile f extensions minSize maxSize minDate maxDate =
      true)
    (hcreate : f.statCreate = none) :
    (scanFiles extensions minSize maxSize minDate maxDate (f :: rest)).2.1 =
      ("Cannot read: " ++ f.path) ::
        (scanFiles extensions minSize maxSize minDate maxDate rest).2.1 ∧
    (scanFiles extensions minSize maxSize minDate maxDate (f :: rest)).1 =
      (scanFiles extensions minSize maxSize minDate maxDate rest).1 := by
  rw [scanFiles, if_pos hpass, hcreate]
  exact ⟨rfl, rfl⟩

/-- Witness for C7's amended statement: the vanishing file is reported and
the following readable file is still scanned. -/
theorem C7_scan_error_reporting_witness :
    (scanFiles none 0 none none none
        [vanishingCandidate, okCandidate]).2.1 =
      ("Cannot read: " ++ vanishingCandidate.path) ::
        (scanFiles none 0 none none none [okCandidate]).2.1 ∧
    (scanFiles none 0 none none none [vanishingCandidate, okCandidate]).1 =
      (scanFiles none 0 none none none [okCandidate]).1 :=
  C7_scan_error_reporting none 0 none none none vanishingCandidate
    [okCandidate] (by decide) rfl

/-- C9, counterexample: moving a two-byte file with a copy that fails after
one byte reports failure while leaving the one-byte partial destination in
place — neither `move_or_copy_file` nor the underlying `shutil.move` removes
a partial destination, contradicting "the partial destination file is
removed before the failure is reported". -/
theorem C9_counterexample :
    (moveOrCopyFileMove twoByteFs "/data/src.bin" "/dst/src.bin"
      (some 1)).1 = false ∧
    FS.read (moveOrCopyFileMove twoByteFs "/data/src.bin" "/dst/src.bin"
      (some 1)).2 "/dst/src.bin" = some [1] :=
  ⟨rfl, rfl⟩

/-- C9, amended: for every move in which the copy fails partway, the failure
is reported and the source file still exists with its contents intact — the
engine never ends with both a missing source and only a partial
destination — but the partial destination file is left in place rather than
removed before the failure is reported. -/
theorem C9_partial_copy_failure (fs : FS) (src dst : String) (k : Nat)
    (c : List Nat) (hsrc : fs.read src = some c) (hne : dst ≠ src) :
    (moveOrCopyFileMove fs src dst (some k)).1 = false ∧
    (moveOrCopyFileMove fs src dst (some k)).2.read src = some c ∧
    (moveOrCopyFileMove fs src dst (some k)).2.read dst =
      some (c.take k) := by
  refine ⟨?_, ?_, ?_⟩ <;>
    simp [moveOrCopyFileMove, shutilMove, copy2Partial, hsrc,
      FS.read_write_ne fs dst src (c.take k) hne,
      FS.read_write_self]

/-- Witness for C9's amended statement at the two-byte scenario. -/
theorem C9_partial_copy_failure_witness :
    (moveOrCopyFileMove twoByteFs "/data/src.bin" "/dst/src.bin"
      (some 1)).1 = false ∧
    (moveOrCopyFileMove twoByteFs "/data/src.bin" "/dst/src.bin"
      (some 1)).2.read "/data/src.bin" = some [1, 2] ∧
    (moveOrCopyFileMove twoByteFs "/data/src.bin" "/dst/src.bin"
      (some 1)).2.read "/dst/src.bin" = some ([1, 2].take 1) :=
  C9_partial_copy_failure twoByteFs "/data/src.bin" "/dst/src.bin" 1 [1, 2]
    rfl (by decide)

theorem mem_hashMapInsert {m : List (String × List FileItemM)} {d : String}
    {f : FileItemM} {kv : String × List FileItemM}
    (h : kv ∈ hashMapInsert m d f) :
    kv ∈ m ∨
      (kv.1 = d ∧ ∃ fs0, kv.2 = fs0 ++ [f] ∧ ((d, fs0) ∈ m ∨ fs0 = [])) := by
  induction m with
  | nil =>
    simp [hashMapInsert] at h
    subst h
    exact Or.inr ⟨rfl, [], rfl, Or.inr rfl⟩
  | cons kv0 rest ih =>
    obtain ⟨k, fs⟩ := kv0
    by_cases hk : k = d
    · subst hk
      rw [hashMapInsert, if_pos rfl] at h
      rcases List.mem_cons.1 h with h | h
      · subst h
        exact Or.inr ⟨rfl, fs, rfl, Or.inl (List.mem_cons_self _ _)⟩
      · exact Or.inl (List.mem_cons_of_mem _ h)
    · rw [hashMapInsert, if_neg hk] at h
      rcases List.mem_cons.1 h with h | h
      · subst h
        exact Or.inl (List.mem_cons_self _ _)
      · rcases ih h with h' | ⟨h1, fs0, h2, h3⟩
        · exact Or.inl (List.mem_cons_of_mem _ h')
        · refine Or.inr ⟨h1, fs0, h2, ?_⟩
          rcases h3 with h3 | h3
          · exact Or.inl (List.mem_cons_of_mem _ h3)
          · exact Or.inr h3

theorem bucketInv_extend {hash : FileItemM → Option String}
    {processed : List FileItemM} {m : List (String × List FileItemM)}
    (hinv : bucketInv hash processed m) (f : FileItemM) :
    bucketInv hash (processed ++ [f]) m := by
  intro kv hkv
  obtain ⟨h1, h2, h3⟩ := hinv kv hkv
  exact ⟨h1, h2, h3.trans (List.sublist_append_left _ _)⟩

theorem bucketInv_insert {hash : FileItemM → Option String}
    {processed : List FileItemM} {m : List (String × List FileItemM)}
    {d : String} {f : FileItemM} (hinv : bucketInv hash processed m)
    (hf : hash f = some d) :
    bucketInv hash (processed ++ [f]) (hashMapInsert m d f) := by
  intro kv hkv
  rcases mem_hashMapInsert hkv with h | ⟨hk, fs0, hfs, h0⟩
  · exact bucketInv_extend hinv f kv h
  · have hsub0 : fs0.Sublist processed := by
      rcases h0 with h0 | h0
      · exact (hinv (d, fs0) h0).2.2
      · simp [h0]
    refine ⟨by simp [hfs], ?_, ?_⟩
    · intro x hx
      rw [hfs] at hx
      rcases List.mem_append.1 hx with hx | hx
      · rcases h0 with h0 | h0
        · rw [hk]
          exact (hinv (d, fs0) h0).2.1 x hx
        · rw [h0] at hx
          simp at hx
      · rw [List.mem_singleton.1 hx, hk]
        exact hf
    · rw [hfs]
      exact hsub0.append (List.Sublist.refl [f])

theorem bucketInv_foldl (hash : FileItemM → Option String) :
    ∀ (files : List FileItemM) (processed : List FileItemM)
      (m : List (String × List FileItemM)),
      bucketInv hash processed m →
      bucketInv hash (processed ++ files)
        (files.foldl (hashStep hash) m) := by
  intro files
  induction files with
  | nil =>
    intro processed m h
    simpa using h
  | cons f rest ih =>
    intro processed m h
    have hstep : bucketInv hash (processed ++ [f]) (hashStep hash m f) := by
      rw [hashStep]
      cases hf : hash f with
      | some d => exact bucketInv_insert h hf
      | none => exact bucketInv_extend h f
    have := ih (processed ++ [f]) (hashStep hash m f) hstep
    simpa [List.append_assoc] using this

theorem bucketInv_buildHashMap (hash : FileItemM → Option String)
    (files : List FileItemM) :
    bucketInv hash files (buildHashMap hash files) := by
  have h0 : bucketInv hash ([] : List FileItemM) [] := by
    intro kv hkv
    simp at hkv
  simpa [buildHashMap] using bucketInv_foldl hash files [] [] h0

/-- C2: every `DuplicateGroup` returned by `detect_duplicates` has at least
2 member files, all members hash to the group's digest, the designated
original is the first file of the group — whose files appear in input order
(a subsequence of the input) — and the at-least-2-members invariant is
enforced at `DuplicateGroup` construction (`mkDuplicateGroup` refuses any
list shorter than 2). -/
theorem C2_duplicate_group_invariants (hash : FileItemM → Option String)
    (files : List FileItemM) (g : DuplicateGroup)
    (hg : g ∈ detectDuplicates hash files) :
    2 ≤ g.files.length ∧
    (∀ f ∈ g.files, hash f = some g.hash) ∧
    g.files.head? = some g.original ∧
    g.files.Sublist files ∧
    (∀ h fs o, fs.length < 2 → mkDuplicateGroup h fs o = none) := by
  have henforce : ∀ (h : String) (fs : List FileItemM) (o : Option FileItemM),
      fs.length < 2 → mkDuplicateGroup h fs o = none := by
    intro h fs o hlen
    match fs, o with
    | [], none => rfl
    | [], some _ => rfl
    | [_], none => rfl
    | [_], some _ => rfl
    | _ :: _ :: _, _ => exact absurd hlen (by simp)
  rw [detectDuplicates] at hg
  rcases List.mem_filterMap.1 hg with ⟨kv, hkv, hsome⟩
  by_cases hlen : 2 ≤ kv.2.length
  · rw [if_pos hlen] at hsome
    obtain ⟨hne, hhash, hsub⟩ := bucketInv_buildHashMap hash files kv hkv
    match hkv2 : kv.2, hsome with
    | f0 :: f1 :: rest, hsome =>
      simp only [mkDuplicateGroup, List.head?, Option.some.injEq] at hsome
      subst hsome
      rw [hkv2] at hhash hsub
      refine ⟨by simp, hhash, rfl, hsub, henforce⟩
  · rw [if_neg hlen] at hsome
    cases hsome

/-- Witness for C2: two byte-identical files `a.txt`, `b.txt` under a common
digest form the single group with `a.txt` (first in input order) as the
original, and that group satisfies every invariant. -/
theorem C2_duplicate_group_invariants_witness :
    2 ≤ groupAB.files.length ∧
    (∀ f ∈ groupAB.files, constHash f = some groupAB.hash) ∧
    groupAB.files.head? = some groupAB.original ∧
    groupAB.files.Sublist [fileA, fileB] ∧
    (∀ h fs o, fs.length < 2 → mkDuplicateGroup h fs o = none) :=
  C2_duplicate_group_invariants constHash [fileA, fileB] groupAB (by decide)

end FileOrganizerPro
